import Mathlib

/-!
Verification of the monitoring detection engine of the `ai-data-quality-copilot`
repository: a shallow embedding in Lean 4 of `src/monitoring/anomaly_detector.py`
(severity classification and per-table anomaly detection) and
`src/monitoring/schema_monitor.py` (schema-drift comparison), with theorems
checking the behaviour the specification describes.

Modelling conventions:
* Python floats are embedded as exact rationals (`ℚ`); the algorithms use only
  field arithmetic, comparisons and decimal rounding, all of which are exact on
  the inputs the theorems use.
* `np.std` computes the square root of the population variance, which is not a
  rational operation; the detector is therefore parametrised by the function
  `stdOf : List ℚ → ℚ` that produces the baseline standard deviation from the
  baseline series, and theorems constrain it by the defining property of the
  square root (`IsStdOf`) where the value matters.
* A pandas history column is a list of cells that can be missing (`NaN`),
  numeric, or non-numeric text; `astype(float)` on non-numeric text raises
  `ValueError`, which the embedding models as `Except.error` propagating out of
  the whole per-table call (the Python code has no handler).
* The `detected_at` wall-clock timestamp field is omitted: it carries no
  detection logic.
-/

namespace DataQuality

/-- `Anomaly` record from `anomaly_detector.py` (lines 57-68), minus the
wall-clock `detected_at` field. -/
structure Anomaly where
  table : String
  column : String
  metric : String
  current_value : ℚ
  baseline_mean : ℚ
  baseline_std : ℚ
  z_score : ℚ
  pct_change : ℚ
  severity : String
deriving Repr, DecidableEq

/-- `SchemaDrift` record from `schema_monitor.py` (lines 41-49), minus the
wall-clock `detected_at` field. -/
structure SchemaDrift where
  table : String
  drift_type : String
  column_name : String
  old_value : String
  new_value : String
  severity : String
deriving Repr, DecidableEq

/-- Python's `round(x, n)` on exact values: round half to even (banker's
rounding) at the n-th decimal digit.  Used by the detector when it stores
baseline/z-score/percent-change numbers into an `Anomaly`. -/
def pyRoundInt (x : ℚ) : ℤ :=
  if x - ⌊x⌋ = 1 / 2 then (if ⌊x⌋ % 2 = 0 then ⌊x⌋ else ⌊x⌋ + 1) else round x

/-- `round(x, n)` for `n` decimal digits. -/
def roundTo (n : ℕ) (x : ℚ) : ℚ := (pyRoundInt (x * 10 ^ n) : ℚ) / 10 ^ n

/-- `assign_severity(z_score, metric)` from `anomaly_detector.py` lines 138-158:
maps a z-score and a metric kind to a severity string. -/
def assign_severity (z_score : ℚ) (metric : String) : String :=
  let abs_z := |z_score|
  if metric = "row_count" then
    if abs_z > 6 then "CRITICAL"
    else if abs_z > 4 then "HIGH"
    else if abs_z > 3 then "MEDIUM"
    else "LOW"
  else if metric = "null_pct" then
    if abs_z > 5 then "CRITICAL"
    else if abs_z > 4 then "HIGH"
    else if abs_z > 3 then "MEDIUM"
    else "LOW"
  else
    if abs_z > 5 then "HIGH"
    else if abs_z > 3 then "MEDIUM"
    else "LOW"

/-- One cell of a pandas history column: missing (`NaN`), a numeric value, or
non-numeric text that `astype(float)` cannot convert. -/
inductive HistCell
  | missing
  | num (q : ℚ)
  | nonNumeric (s : String)
deriving Repr, DecidableEq

/-- `Series.tail(n)`: the last `n` elements of a list. -/
def lastN (n : ℕ) (l : List α) : List α := l.drop (l.length - n)

/-- `.astype(float)` on a pandas column with missing values already dropped:
succeeds with the numeric values, or raises (`none`) on a non-numeric cell. -/
def toFloats : List HistCell → Option (List ℚ)
  | [] => some []
  | .num q :: rest => (toFloats rest).map (q :: ·)
  | .missing :: _ => none
  | .nonNumeric _ :: _ => none

/-- `history_df[hist_col].dropna().tail(30).values.astype(float)` from
`anomaly_detector.py` lines 191-197: drop missing cells, keep the last 30 of
what remains, convert to numbers (raising on non-numeric text). -/
def processSeries (cells : List HistCell) : Option (List ℚ) :=
  toFloats (lastN 30 (cells.filter (· ≠ .missing)))

/-- `np.mean` over the baseline series. -/
def histMean (l : List ℚ) : ℚ := l.sum / l.length

/-- The population variance (`ddof = 0`) of the baseline series: the square of
what `np.std` computes. -/
def histVar (l : List ℚ) : ℚ := (l.map (fun x => (x - histMean l) ^ 2)).sum / l.length

/-- `s` is the value `np.std` returns on `l`: the non-negative square root of
the population variance. -/
def IsStdOf (l : List ℚ) (s : ℚ) : Prop := 0 ≤ s ∧ s ^ 2 = histVar l

/-- The per-key body of `detect_anomalies_for_table` (lines 205-273), after
`hist_mean` and `hist_std` have been computed: zero-variance fallback branch
when `hist_std < 1e-10`, otherwise the z-score branch with the LOW `null_pct`
suppression.  Returns the anomaly appended for this key, if any. -/
def detectKey (table col metric : String) (current_value hist_mean hist_std : ℚ) :
    Option Anomaly :=
  if hist_std < 1 / 10 ^ 10 then
    if metric = "null_pct" ∧ hist_mean < 1 / 100 ∧ current_value > 5 / 100 then
      some { table := table, column := col, metric := metric
             current_value := current_value
             baseline_mean := roundTo 6 hist_mean
             baseline_std := roundTo 6 hist_std
             z_score := 999
             pct_change := roundTo 4 (current_value - hist_mean)
             severity := if current_value > 20 / 100 then "CRITICAL" else "HIGH" }
    else if metric = "mean" ∧ hist_mean > 0 then
      let pct_diff := |current_value - hist_mean| / hist_mean
      if pct_diff > 20 / 100 then
        some { table := table, column := col, metric := metric
               current_value := current_value
               baseline_mean := roundTo 6 hist_mean
               baseline_std := roundTo 6 hist_std
               z_score := 999
               pct_change := roundTo 4 pct_diff
               severity := if pct_diff > 50 / 100 then "CRITICAL" else "HIGH" }
      else none
    else if metric = "row_count" ∧ hist_mean > 0 then
      let pct_diff := (current_value - hist_mean) / hist_mean
      if pct_diff < -(15 / 100) then
        some { table := table, column := col, metric := metric
               current_value := current_value
               baseline_mean := roundTo 6 hist_mean
               baseline_std := roundTo 6 hist_std
               z_score := 999
               pct_change := roundTo 4 pct_diff
               severity := if pct_diff < -(30 / 100) then "CRITICAL" else "HIGH" }
      else none
    else none
  else
    let z_score := (current_value - hist_mean) / hist_std
    let pct_change := if hist_mean ≠ 0 then (current_value - hist_mean) / hist_mean else 0
    if |z_score| ≥ 3 then
      let severity := assign_severity z_score metric
      if metric = "null_pct" ∧ severity = "LOW" ∧ |pct_change| < 5 / 100 then none
      else
        some { table := table, column := col, metric := metric
               current_value := current_value
               baseline_mean := roundTo 6 hist_mean
               baseline_std := roundTo 6 hist_std
               z_score := roundTo 3 z_score
               pct_change := roundTo 4 pct_change
               severity := severity }
    else none

/-- The metric-key → history-column mapping of lines 176-185; `none` is the
final `else: continue`. -/
def histColName (col metric : String) : Option String :=
  if metric = "row_count" then some "row_count"
  else if metric = "null_pct" then some (col ++ "__null_pct")
  else if metric = "mean" then some (col ++ "__mean")
  else if metric = "std" then some (col ++ "__std")
  else none

/-- One iteration of the loop of `detect_anomalies_for_table` (lines 172-273)
for the key `(col, metric)` with today's value `current_value`, against the
history table `hist` (column name → cells).  `Except.error` models the
uncaught `ValueError` from `astype(float)` on non-numeric history text. -/
def processKey (stdOf : List ℚ → ℚ) (table : String)
    (hist : List (String × List HistCell)) (col metric : String)
    (current_value : ℚ) : Except Unit (Option Anomaly) :=
  match histColName col metric with
  | none => .ok none
  | some hc =>
    match hist.lookup hc with
    | none => .ok none
    | some cells =>
      match processSeries cells with
      | none => .error ()
      | some values =>
        if values.length < 7 then .ok none
        else .ok (detectKey table col metric current_value (histMean values) (stdOf values))

/-- `detect_anomalies_for_table(table, current_metrics, history_df)`
(lines 161-275): fold `processKey` over the metric keys in order, collecting
emitted anomalies; an uncaught `ValueError` aborts the whole call. -/
def detectTable (stdOf : List ℚ → ℚ) (table : String)
    (metrics : List (String × String × ℚ))
    (hist : List (String × List HistCell)) : Except Unit (List Anomaly) :=
  match metrics with
  | [] => .ok []
  | (col, metric, v) :: rest =>
    match processKey stdOf table hist col metric v with
    | .error e => .error e
    | .ok a? =>
      match detectTable stdOf table rest hist with
      | .error e => .error e
      | .ok tail => .ok (a?.toList ++ tail)

/-- Value of column `c` in a column-type map (Python `d[c]`; maps have unique
keys, so under a `Nodup` hypothesis the default is never used). -/
def typeOf (m : List (String × String)) (c : String) : String :=
  (m.lookup c).getD ""

/-- The column names of a column-type map (Python `set(d.keys())`; the map's
keys are unique, so the list already has no duplicates). -/
def cols (m : List (String × String)) : List String := m.map Prod.fst

/-- `compare_schemas(table, baseline, current)` from `schema_monitor.py`
lines 91-143: dropped columns (CRITICAL), then added columns (LOW), then type
changes on common columns (HIGH).  Python iterates hash sets in unspecified
order; the spec declares the output order-insensitive, so the embedding uses
the key-list order. -/
def compare_schemas (table : String) (baseline current : List (String × String)) :
    List SchemaDrift :=
  (((cols baseline).filter (fun c => ¬ (cols current).contains c)).map fun col =>
    { table := table, drift_type := "column_dropped", column_name := col
      old_value := typeOf baseline col, new_value := "", severity := "CRITICAL" })
  ++ (((cols current).filter (fun c => ¬ (cols baseline).contains c)).map fun col =>
    { table := table, drift_type := "column_added", column_name := col
      old_value := "", new_value := typeOf current col, severity := "LOW" })
  ++ (((cols baseline).filter (fun c => (cols current).contains c)).filterMap fun col =>
    if typeOf baseline col ≠ typeOf current col then
      some { table := table, drift_type := "type_changed", column_name := col
             old_value := typeOf baseline col, new_value := typeOf current col
             severity := "HIGH" }
    else none)

/-! ### Helper lemmas shared by the claim theorems -/

/-- Unfolding `processKey` when the key maps to an existing history column
whose series converts cleanly and is long enough. -/
theorem processKey_eq (stdOf : List ℚ → ℚ) (table : String)
    (hist : List (String × List HistCell)) (col metric : String) (v : ℚ)
    (hc : String) (cells : List HistCell) (values : List ℚ)
    (h1 : histColName col metric = some hc)
    (h2 : hist.lookup hc = some cells)
    (h3 : processSeries cells = some values)
    (h4 : ¬ values.length < 7) :
    processKey stdOf table hist col metric v =
      .ok (detectKey table col metric v (histMean values) (stdOf values)) := by
  simp [processKey, h1, h2, h3, h4]

/-- The z-score branch of `detectKey`, written as a single conditional. -/
theorem detectKey_normal (table col metric : String) (v m s : ℚ)
    (heps : ¬ s < 1 / 10 ^ 10) :
    detectKey table col metric v m s =
      if |(v - m) / s| ≥ 3 ∧
          ¬(metric = "null_pct" ∧ assign_severity ((v - m) / s) metric = "LOW" ∧
            |if m ≠ 0 then (v - m) / m else 0| < 5 / 100) then
        some { table := table, column := col, metric := metric
               current_value := v
               baseline_mean := roundTo 6 m
               baseline_std := roundTo 6 s
               z_score := roundTo 3 ((v - m) / s)
               pct_change := roundTo 4 (if m ≠ 0 then (v - m) / m else 0)
               severity := assign_severity ((v - m) / s) metric }
      else none := by
  simp only [detectKey, if_neg heps]
  split_ifs <;> tauto

/-- The zero-variance branch of `detectKey` for a `null_pct` key. -/
theorem detectKey_flat_null_pct (table col : String) (v m s : ℚ)
    (heps : s < 1 / 10 ^ 10) :
    detectKey table col "null_pct" v m s =
      if m < 1 / 100 ∧ v > 5 / 100 then
        some { table := table, column := col, metric := "null_pct"
               current_value := v
               baseline_mean := roundTo 6 m
               baseline_std := roundTo 6 s
               z_score := 999
               pct_change := roundTo 4 (v - m)
               severity := if v > 20 / 100 then "CRITICAL" else "HIGH" }
      else none := by
  simp only [detectKey, if_pos heps]
  split_ifs <;> first | rfl | tauto

/-- The zero-variance branch of `detectKey` for a `mean` key. -/
theorem detectKey_flat_mean (table col : String) (v m s : ℚ)
    (heps : s < 1 / 10 ^ 10) :
    detectKey table col "mean" v m s =
      if m > 0 ∧ |v - m| / m > 20 / 100 then
        some { table := table, column := col, metric := "mean"
               current_value := v
               baseline_mean := roundTo 6 m
               baseline_std := roundTo 6 s
               z_score := 999
               pct_change := roundTo 4 (|v - m| / m)
               severity := if |v - m| / m > 50 / 100 then "CRITICAL" else "HIGH" }
      else none := by
  simp only [detectKey, if_pos heps]
  split_ifs <;> first | rfl | tauto

/-- The zero-variance branch of `detectKey` for a `row_count` key. -/
theorem detectKey_flat_row_count (table col : String) (v m s : ℚ)
    (heps : s < 1 / 10 ^ 10) :
    detectKey table col "row_count" v m s =
      if m > 0 ∧ (v - m) / m < -(15 / 100) then
        some { table := table, column := col, metric := "row_count"
               current_value := v
               baseline_mean := roundTo 6 m
               baseline_std := roundTo 6 s
               z_score := 999
               pct_change := roundTo 4 ((v - m) / m)
               severity := if (v - m) / m < -(30 / 100) then "CRITICAL" else "HIGH" }
      else none := by
  simp only [detectKey, if_pos heps]
  split_ifs <;> first | rfl | tauto

/-- The zero-variance branch of `detectKey` never fires for a `std` key. -/
theorem detectKey_flat_std (table col : String) (v m s : ℚ)
    (heps : s < 1 / 10 ^ 10) :
    detectKey table col "std" v m s = none := by
  simp only [detectKey, if_pos heps]
  split_ifs <;> first | rfl | tauto

/-- A key whose `processKey` is a clean no-op can be removed from the metric
list without changing `detectTable`'s result. -/
theorem detectTable_skip (stdOf : List ℚ → ℚ) (table : String)
    (hist : List (String × List HistCell)) (pre post : List (String × String × ℚ))
    (col metric : String) (v : ℚ)
    (h : processKey stdOf table hist col metric v = .ok none) :
    detectTable stdOf table (pre ++ (col, metric, v) :: post) hist =
      detectTable stdOf table (pre ++ post) hist := by
  induction pre with
  | nil =>
    simp only [List.nil_append, detectTable, h]
    cases htail : detectTable stdOf table post hist <;> simp [htail]
  | cons p pre ih =>
    obtain ⟨pcol, pmetric, pv⟩ := p
    simp only [List.cons_append, detectTable, List.append_eq, ih]

/-- A key whose `processKey` raises propagates the abort through
`detectTable`, whatever comes before or after it. -/
theorem detectTable_abort (stdOf : List ℚ → ℚ) (table : String)
    (hist : List (String × List HistCell)) (pre post : List (String × String × ℚ))
    (col metric : String) (v : ℚ)
    (h : processKey stdOf table hist col metric v = .error ()) :
    detectTable stdOf table (pre ++ (col, metric, v) :: post) hist = .error () := by
  induction pre with
  | nil => simp [detectTable, h]
  | cons p pre ih =>
    obtain ⟨pcol, pmetric, pv⟩ := p
    simp only [List.cons_append, detectTable, List.append_eq, ih]
    cases processKey stdOf table hist pcol pmetric pv with
    | error e => cases e; rfl
    | ok a? => rfl

/-! ### Claim theorems -/

/-- C1: the severity classifier realises exactly the band table of spec §4.4
(strict comparisons: row_count CRITICAL/HIGH/MEDIUM above 6/4/3, null_pct
above 5/4/3, every other kind HIGH/MEDIUM above 5/3 and never CRITICAL), a
magnitude of exactly 3 classifies LOW for every kind, and the result depends
on the z-score only through its absolute value. -/
theorem assign_severity_bands (z : ℚ) :
    assign_severity z "row_count" =
      (if |z| > 6 then "CRITICAL" else if |z| > 4 then "HIGH"
       else if |z| > 3 then "MEDIUM" else "LOW") ∧
    assign_severity z "null_pct" =
      (if |z| > 5 then "CRITICAL" else if |z| > 4 then "HIGH"
       else if |z| > 3 then "MEDIUM" else "LOW") ∧
    (∀ k, k ≠ "row_count" → k ≠ "null_pct" →
      assign_severity z k =
        (if |z| > 5 then "HIGH" else if |z| > 3 then "MEDIUM" else "LOW") ∧
      assign_severity z k ≠ "CRITICAL") ∧
    (∀ k, assign_severity z k = assign_severity (-z) k) ∧
    (∀ k, assign_severity 3 k = "LOW") := by
  refine ⟨by simp [assign_severity], by simp [assign_severity], ?_, ?_, ?_⟩
  · intro k hk1 hk2
    constructor
    · simp [assign_severity, hk1, hk2]
    · simp only [assign_severity, if_neg hk1, if_neg hk2]
      split_ifs <;> simp
  · intro k
    simp [assign_severity, abs_neg]
  · intro k
    simp only [assign_severity]
    norm_num

/-- Witness for C1 at a concrete kind and z-score: `mean` with `z = 7` is in
the HIGH band and is never CRITICAL. -/
theorem assign_severity_bands_spot :
    assign_severity 7 "mean" = "HIGH" ∧ assign_severity 7 "mean" ≠ "CRITICAL" := by
  have h := (assign_severity_bands 7).2.2.1 "mean" (by decide) (by decide)
  refine ⟨?_, h.2⟩
  rw [h.1]
  norm_num

/-- C2: in the normal branch (baseline std at least the epsilon), a key with
sufficient history fires exactly when `|z| ≥ 3` with
`z = (today − baseline_mean) / baseline_std`, except that a `null_pct` key the
classifier puts in LOW is suppressed when the absolute percent change is below
5%; the emitted anomaly records that z-score and the classifier's severity. -/
theorem zscore_branch_rule (stdOf : List ℚ → ℚ) (table : String)
    (hist : List (String × List HistCell)) (col metric : String) (v : ℚ)
    (hc : String) (cells : List HistCell) (values : List ℚ)
    (h1 : histColName col metric = some hc)
    (h2 : hist.lookup hc = some cells)
    (h3 : processSeries cells = some values)
    (h4 : ¬ values.length < 7)
    (_hstd : IsStdOf values (stdOf values))
    (heps : ¬ stdOf values < 1 / 10 ^ 10) :
    processKey stdOf table hist col metric v =
      .ok (if |(v - histMean values) / stdOf values| ≥ 3 ∧
              ¬(metric = "null_pct" ∧
                assign_severity ((v - histMean values) / stdOf values) metric = "LOW" ∧
                |if histMean values ≠ 0 then (v - histMean values) / histMean values
                 else 0| < 5 / 100) then
        some { table := table, column := col, metric := metric
               current_value := v
               baseline_mean := roundTo 6 (histMean values)
               baseline_std := roundTo 6 (stdOf values)
               z_score := roundTo 3 ((v - histMean values) / stdOf values)
               pct_change := roundTo 4 (if histMean values ≠ 0 then
                 (v - histMean values) / histMean values else 0)
               severity := assign_severity ((v - histMean values) / stdOf values) metric }
      else none) := by
  rw [processKey_eq stdOf table hist col metric v hc cells values h1 h2 h3 h4,
    detectKey_normal table col metric v (histMean values) (stdOf values) heps]

/-- Witness for C2: over the baseline series `[0,0,0,0,2,2,2,2]` (mean 1,
standard deviation 1) a `mean` value of 100 has z-score 99 and fires a HIGH
anomaly carrying it, while a value of 2 (z-score 1) does not fire. -/
theorem zscore_branch_rule_spot :
    processKey (fun _ => 1) "orders" [("c__mean", [.num 0, .num 0, .num 0, .num 0,
        .num 2, .num 2, .num 2, .num 2])] "c" "mean" 100 =
      .ok (some ⟨"orders", "c", "mean", 100, 1, 1, 99, 99, "HIGH"⟩) ∧
    processKey (fun _ => 1) "orders" [("c__mean", [.num 0, .num 0, .num 0, .num 0,
        .num 2, .num 2, .num 2, .num 2])] "c" "mean" 2 = .ok none := by
  constructor
  · rw [zscore_branch_rule (fun _ => 1) "orders"
      [("c__mean", [.num 0, .num 0, .num 0, .num 0, .num 2, .num 2, .num 2, .num 2])]
      "c" "mean" 100 "c__mean"
      [.num 0, .num 0, .num 0, .num 0, .num 2, .num 2, .num 2, .num 2]
      [0, 0, 0, 0, 2, 2, 2, 2] rfl rfl rfl (by norm_num)
      (by norm_num [IsStdOf, histVar, histMean]) (by norm_num)]
    norm_num [histMean, roundTo, pyRoundInt, round_eq, assign_severity, String.reduceEq]
    decide
  · rw [zscore_branch_rule (fun _ => 1) "orders"
      [("c__mean", [.num 0, .num 0, .num 0, .num 0, .num 2, .num 2, .num 2, .num 2])]
      "c" "mean" 2 "c__mean"
      [.num 0, .num 0, .num 0, .num 0, .num 2, .num 2, .num 2, .num 2]
      [0, 0, 0, 0, 2, 2, 2, 2] rfl rfl rfl (by norm_num)
      (by norm_num [IsStdOf, histVar, histMean]) (by norm_num)]
    norm_num [histMean]

/-- C3: in the zero-variance branch a `null_pct` key with sufficient history
fires exactly when the baseline mean is below 0.01 and today's value exceeds
0.05; the anomaly carries the sentinel deviation score 999 and is CRITICAL
exactly when today's value exceeds 0.20, HIGH otherwise. -/
theorem flat_null_pct_rule (stdOf : List ℚ → ℚ) (table : String)
    (hist : List (String × List HistCell)) (col : String) (v : ℚ)
    (cells : List HistCell) (values : List ℚ)
    (h2 : hist.lookup (col ++ "__null_pct") = some cells)
    (h3 : processSeries cells = some values)
    (h4 : ¬ values.length < 7)
    (_hstd : IsStdOf values (stdOf values))
    (heps : stdOf values < 1 / 10 ^ 10) :
    processKey stdOf table hist col "null_pct" v =
      .ok (if histMean values < 1 / 100 ∧ v > 5 / 100 then
        some { table := table, column := col, metric := "null_pct"
               current_value := v
               baseline_mean := roundTo 6 (histMean values)
               baseline_std := roundTo 6 (stdOf values)
               z_score := 999
               pct_change := roundTo 4 (v - histMean values)
               severity := if v > 20 / 100 then "CRITICAL" else "HIGH" }
      else none) := by
  rw [processKey_eq stdOf table hist col "null_pct" v (col ++ "__null_pct") cells values
      (by simp [histColName]) h2 h3 h4,
    detectKey_flat_null_pct table col v (histMean values) (stdOf values) heps]

/-- Witness for C3: over a zero-variance `null_pct` baseline of ten 0 values,
a current value of 0.45 yields exactly one CRITICAL anomaly with deviation
score 999, and a current value of 0.02 yields none. -/
theorem flat_null_pct_rule_spot :
    processKey (fun _ => 0) "payments" [("amount__null_pct",
        List.replicate 10 (HistCell.num 0))] "amount" "null_pct" (45 / 100) =
      .ok (some ⟨"payments", "amount", "null_pct", 45 / 100, 0, 0, 999, 45 / 100,
        "CRITICAL"⟩) ∧
    processKey (fun _ => 0) "payments" [("amount__null_pct",
        List.replicate 10 (HistCell.num 0))] "amount" "null_pct" (2 / 100) = .ok none := by
  constructor
  · rw [flat_null_pct_rule (fun _ => 0) "payments"
      [("amount__null_pct", List.replicate 10 (HistCell.num 0))] "amount" (45 / 100)
      (List.replicate 10 (HistCell.num 0)) (List.replicate 10 0) rfl rfl (by decide)
      (by norm_num [IsStdOf, histVar, histMean, List.map_replicate, List.sum_replicate])
      (by norm_num)]
    norm_num [histMean, roundTo, pyRoundInt, round_eq, List.sum_replicate]
  · rw [flat_null_pct_rule (fun _ => 0) "payments"
      [("amount__null_pct", List.replicate 10 (HistCell.num 0))] "amount" (2 / 100)
      (List.replicate 10 (HistCell.num 0)) (List.replicate 10 0) rfl rfl (by decide)
      (by norm_num [IsStdOf, histVar, histMean, List.map_replicate, List.sum_replicate])
      (by norm_num)]
    norm_num [histMean, List.sum_replicate]

/-- C4: in the zero-variance branch a `mean` key with sufficient history and
positive baseline mean fires exactly when the absolute relative change exceeds
20%, with sentinel score 999 and CRITICAL exactly above 50% (HIGH otherwise);
a baseline mean that is not strictly positive never fires. -/
theorem flat_mean_rule (stdOf : List ℚ → ℚ) (table : String)
    (hist : List (String × List HistCell)) (col : String) (v : ℚ)
    (cells : List HistCell) (values : List ℚ)
    (h2 : hist.lookup (col ++ "__mean") = some cells)
    (h3 : processSeries cells = some values)
    (h4 : ¬ values.length < 7)
    (_hstd : IsStdOf values (stdOf values))
    (heps : stdOf values < 1 / 10 ^ 10) :
    processKey stdOf table hist col "mean" v =
      .ok (if histMean values > 0 ∧ |v - histMean values| / histMean values > 20 / 100 then
        some { table := table, column := col, metric := "mean"
               current_value := v
               baseline_mean := roundTo 6 (histMean values)
               baseline_std := roundTo 6 (stdOf values)
               z_score := 999
               pct_change := roundTo 4 (|v - histMean values| / histMean values)
               severity := if |v - histMean values| / histMean values > 50 / 100 then
                 "CRITICAL" else "HIGH" }
      else none) := by
  rw [processKey_eq stdOf table hist col "mean" v (col ++ "__mean") cells values
      (by simp [histColName]) h2 h3 h4,
    detectKey_flat_mean table col v (histMean values) (stdOf values) heps]

/-- Witness for C4: over a zero-variance `mean` baseline of ten 50 values, a
current value of 80 (60% shift) fires CRITICAL with score 999, a value of 55
(10% shift) does not fire, and over an all-zero baseline even a value of
1000000 does not fire. -/
theorem flat_mean_rule_spot :
    processKey (fun _ => 0) "orders" [("price__mean",
        List.replicate 10 (HistCell.num 50))] "price" "mean" 80 =
      .ok (some ⟨"orders", "price", "mean", 80, 50, 0, 999, 3 / 5, "CRITICAL"⟩) ∧
    processKey (fun _ => 0) "orders" [("price__mean",
        List.replicate 10 (HistCell.num 50))] "price" "mean" 55 = .ok none ∧
    processKey (fun _ => 0) "orders" [("price__mean",
        List.replicate 10 (HistCell.num 0))] "price" "mean" 1000000 = .ok none := by
  refine ⟨?_, ?_, ?_⟩
  · rw [flat_mean_rule (fun _ => 0) "orders"
      [("price__mean", List.replicate 10 (HistCell.num 50))] "price" 80
      (List.replicate 10 (HistCell.num 50)) (List.replicate 10 50) rfl rfl (by decide)
      (by norm_num [IsStdOf, histVar, histMean, List.map_replicate, List.sum_replicate])
      (by norm_num)]
    norm_num [histMean, roundTo, pyRoundInt, round_eq, List.sum_replicate]
  · rw [flat_mean_rule (fun _ => 0) "orders"
      [("price__mean", List.replicate 10 (HistCell.num 50))] "price" 55
      (List.replicate 10 (HistCell.num 50)) (List.replicate 10 50) rfl rfl (by decide)
      (by norm_num [IsStdOf, histVar, histMean, List.map_replicate, List.sum_replicate])
      (by norm_num)]
    norm_num [histMean, List.sum_replicate]
  · rw [flat_mean_rule (fun _ => 0) "orders"
      [("price__mean", List.replicate 10 (HistCell.num 0))] "price" 1000000
      (List.replicate 10 (HistCell.num 0)) (List.replicate 10 0) rfl rfl (by decide)
      (by norm_num [IsStdOf, histVar, histMean, List.map_replicate, List.sum_replicate])
      (by norm_num)]
    norm_num [histMean, List.sum_replicate]

/-- C5: in the zero-variance branch a `row_count` key with sufficient history
and positive baseline mean fires exactly when the signed relative change drops
below −15%, with sentinel score 999 and CRITICAL exactly below −30% (HIGH
otherwise); any increase of the row count never fires in this branch. -/
theorem flat_row_count_rule (stdOf : List ℚ → ℚ) (table : String)
    (hist : List (String × List HistCell)) (col : String) (v : ℚ)
    (cells : List HistCell) (values : List ℚ)
    (h2 : hist.lookup "row_count" = some cells)
    (h3 : processSeries cells = some values)
    (h4 : ¬ values.length < 7)
    (_hstd : IsStdOf values (stdOf values))
    (heps : stdOf values < 1 / 10 ^ 10) :
    processKey stdOf table hist col "row_count" v =
      .ok (if histMean values > 0 ∧ (v - histMean values) / histMean values < -(15 / 100) then
        some { table := table, column := col, metric := "row_count"
               current_value := v
               baseline_mean := roundTo 6 (histMean values)
               baseline_std := roundTo 6 (stdOf values)
               z_score := 999
               pct_change := roundTo 4 ((v - histMean values) / histMean values)
               severity := if (v - histMean values) / histMean values < -(30 / 100) then
                 "CRITICAL" else "HIGH" }
      else none) ∧
    (histMean values ≤ v → processKey stdOf table hist col "row_count" v = .ok none) := by
  have heq : processKey stdOf table hist col "row_count" v =
      .ok (if histMean values > 0 ∧ (v - histMean values) / histMean values < -(15 / 100) then
        some { table := table, column := col, metric := "row_count"
               current_value := v
               baseline_mean := roundTo 6 (histMean values)
               baseline_std := roundTo 6 (stdOf values)
               z_score := 999
               pct_change := roundTo 4 ((v - histMean values) / histMean values)
               severity := if (v - histMean values) / histMean values < -(30 / 100) then
                 "CRITICAL" else "HIGH" }
      else none) := by
    rw [processKey_eq stdOf table hist col "row_count" v "row_count" cells values
        (by simp [histColName]) h2 h3 h4,
      detectKey_flat_row_count table col v (histMean values) (stdOf values) heps]
  refine ⟨heq, fun hvm => ?_⟩
  rw [heq, if_neg ?_]
  rintro ⟨hm, hlt⟩
  have hnn : (0 : ℚ) ≤ (v - histMean values) / histMean values :=
    div_nonneg (by linarith) (le_of_lt hm)
  linarith

/-- Witness for C5: over a zero-variance `row_count` baseline of thirty 100
values, a drop to 50 (−50%) fires CRITICAL with score 999 and an increase to
150 does not fire. -/
theorem flat_row_count_rule_spot :
    processKey (fun _ => 0) "events" [("row_count",
        List.replicate 30 (HistCell.num 100))] "__row_count__" "row_count" 50 =
      .ok (some ⟨"events", "__row_count__", "row_count", 50, 100, 0, 999, -(1 / 2),
        "CRITICAL"⟩) ∧
    processKey (fun _ => 0) "events" [("row_count",
        List.replicate 30 (HistCell.num 100))] "__row_count__" "row_count" 150 =
      .ok none := by
  constructor
  · rw [(flat_row_count_rule (fun _ => 0) "events"
      [("row_count", List.replicate 30 (HistCell.num 100))] "__row_count__" 50
      (List.replicate 30 (HistCell.num 100)) (List.replicate 30 100) rfl rfl (by decide)
      (by norm_num [IsStdOf, histVar, histMean, List.map_replicate, List.sum_replicate])
      (by norm_num)).1]
    norm_num [histMean, roundTo, pyRoundInt, round_eq, List.sum_replicate]
  · exact (flat_row_count_rule (fun _ => 0) "events"
      [("row_count", List.replicate 30 (HistCell.num 100))] "__row_count__" 150
      (List.replicate 30 (HistCell.num 100)) (List.replicate 30 100) rfl rfl (by decide)
      (by norm_num [IsStdOf, histVar, histMean, List.map_replicate, List.sum_replicate])
      (by norm_num)).2 (by norm_num [histMean, List.sum_replicate])

/-- C6: a key whose usable historical series has fewer than 7 points is
skipped without error — no anomaly however extreme today's value — and the
remaining keys of the table are still processed. -/
theorem insufficient_history_skips (stdOf : List ℚ → ℚ) (table : String)
    (hist : List (String × List HistCell)) (pre post : List (String × String × ℚ))
    (col metric : String) (v : ℚ) (hc : String) (cells : List HistCell)
    (values : List ℚ)
    (h1 : histColName col metric = some hc)
    (h2 : hist.lookup hc = some cells)
    (h3 : processSeries cells = some values)
    (h4 : values.length < 7) :
    processKey stdOf table hist col metric v = .ok none ∧
    detectTable stdOf table (pre ++ (col, metric, v) :: post) hist =
      detectTable stdOf table (pre ++ post) hist := by
  have hp : processKey stdOf table hist col metric v = .ok none := by
    simp [processKey, h1, h2, h3, h4]
  exact ⟨hp, detectTable_skip stdOf table hist pre post col metric v hp⟩

/-- Witness for C6: five days of history are below the seven-day minimum, so a
row count of 99999 against a baseline of 1000 fires nothing, and the key drops
out of the table scan. -/
theorem insufficient_history_skips_spot :
    processKey (fun _ => 0) "orders" [("row_count", List.replicate 5 (HistCell.num 1000))]
      "__row_count__" "row_count" 99999 = .ok none ∧
    detectTable (fun _ => 0) "orders" [("__row_count__", "row_count", 99999)]
      [("row_count", List.replicate 5 (HistCell.num 1000))] =
    detectTable (fun _ => 0) "orders" []
      [("row_count", List.replicate 5 (HistCell.num 1000))] :=
  insufficient_history_skips (fun _ => 0) "orders"
    [("row_count", List.replicate 5 (HistCell.num 1000))] [] [] "__row_count__"
    "row_count" 99999 "row_count" (List.replicate 5 (HistCell.num 1000))
    (List.replicate 5 1000) rfl rfl rfl (by decide)

/-- C10: in the zero-variance branch a `std` key is always skipped — the
absolute-threshold fallback handles only `null_pct`, `mean` and `row_count`,
so no anomaly is emitted however far today's value deviates. -/
theorem flat_std_skipped (stdOf : List ℚ → ℚ) (table : String)
    (hist : List (String × List HistCell)) (col : String) (v : ℚ)
    (cells : List HistCell) (values : List ℚ)
    (h2 : hist.lookup (col ++ "__std") = some cells)
    (h3 : processSeries cells = some values)
    (h4 : ¬ values.length < 7)
    (_hstd : IsStdOf values (stdOf values))
    (heps : stdOf values < 1 / 10 ^ 10) :
    processKey stdOf table hist col "std" v = .ok none := by
  rw [processKey_eq stdOf table hist col "std" v (col ++ "__std") cells values
    (by simp [histColName]) h2 h3 h4, detectKey_flat_std table col v (histMean values)
    (stdOf values) heps]

/-- C7 counterexample: the detector takes the last 30 of the *non-missing*
values (`dropna().tail(30)`), not the non-missing values among the last 30
history entries.  Two histories that agree on their 30 most recent entries —
one has an extra old entry 10 in front of 21 missing cells and nine 0s — get
different detection results for the same current value, because the old entry
enters the baseline when the missing cells are dropped first; the supplied
standard deviations (3 for the ten-point series, 0 for the nine-point one)
are the true ones. -/
theorem rolling_window_counterexample :
    lastN 30 (HistCell.num 10 :: (List.replicate 21 HistCell.missing ++
        List.replicate 9 (HistCell.num 0))) =
      List.replicate 21 HistCell.missing ++ List.replicate 9 (HistCell.num 0) ∧
    IsStdOf [10, 0, 0, 0, 0, 0, 0, 0, 0, 0]
      ((fun l : List ℚ => if l.length = 10 then (3 : ℚ) else 0)
        [10, 0, 0, 0, 0, 0, 0, 0, 0, 0]) ∧
    IsStdOf [0, 0, 0, 0, 0, 0, 0, 0, 0]
      ((fun l : List ℚ => if l.length = 10 then (3 : ℚ) else 0)
        [0, 0, 0, 0, 0, 0, 0, 0, 0]) ∧
    processKey (fun l => if l.length = 10 then 3 else 0) "orders"
        [("c__mean", HistCell.num 10 :: (List.replicate 21 HistCell.missing ++
          List.replicate 9 (HistCell.num 0)))] "c" "mean" 100 ≠
      processKey (fun l => if l.length = 10 then 3 else 0) "orders"
        [("c__mean", List.replicate 21 HistCell.missing ++
          List.replicate 9 (HistCell.num 0))] "c" "mean" 100 := by
  refine ⟨rfl, ?_, ?_, ?_⟩
  · norm_num [IsStdOf, histVar, histMean]
  · norm_num [IsStdOf, histVar, histMean]
  · have hA : processKey (fun l => if l.length = 10 then 3 else 0) "orders"
        [("c__mean", HistCell.num 10 :: (List.replicate 21 HistCell.missing ++
          List.replicate 9 (HistCell.num 0)))] "c" "mean" 100 =
        .ok (detectKey "orders" "c" "mean" 100
          (histMean [10, 0, 0, 0, 0, 0, 0, 0, 0, 0])
          ((fun l : List ℚ => if l.length = 10 then (3 : ℚ) else 0)
            [10, 0, 0, 0, 0, 0, 0, 0, 0, 0])) :=
      processKey_eq _ "orders" _ "c" "mean" 100 "c__mean" _
        [10, 0, 0, 0, 0, 0, 0, 0, 0, 0] rfl rfl rfl (by decide)
    have hB : processKey (fun l => if l.length = 10 then 3 else 0) "orders"
        [("c__mean", List.replicate 21 HistCell.missing ++
          List.replicate 9 (HistCell.num 0))] "c" "mean" 100 =
        .ok (detectKey "orders" "c" "mean" 100
          (histMean [0, 0, 0, 0, 0, 0, 0, 0, 0])
          ((fun l : List ℚ => if l.length = 10 then (3 : ℚ) else 0)
            [0, 0, 0, 0, 0, 0, 0, 0, 0])) :=
      processKey_eq _ "orders" _ "c" "mean" 100 "c__mean" _
        [0, 0, 0, 0, 0, 0, 0, 0, 0] rfl rfl rfl (by decide)
    rw [hA, hB, detectKey_normal "orders" "c" "mean" 100
        (histMean [10, 0, 0, 0, 0, 0, 0, 0, 0, 0]) _ (by norm_num),
      detectKey_flat_mean "orders" "c" 100 (histMean [0, 0, 0, 0, 0, 0, 0, 0, 0]) _
        (by norm_num)]
    norm_num [histMean, assign_severity, String.reduceEq]
    decide

/-- C7 amended: the baseline series for a key is the 30 most recent
*non-missing* entries of its history column (missing values are dropped
before the window is taken); two histories whose columns agree on that
series — however they differ further back — give identical detection
results. -/
theorem rolling_window_amended (stdOf : List ℚ → ℚ) (table : String)
    (hist hist' : List (String × List HistCell)) (col metric : String) (v : ℚ)
    (hc : String) (cells cells' : List HistCell)
    (h1 : histColName col metric = some hc)
    (h2 : hist.lookup hc = some cells)
    (h2' : hist'.lookup hc = some cells')
    (hwin : lastN 30 (cells.filter (· ≠ .missing)) =
      lastN 30 (cells'.filter (· ≠ .missing))) :
    processKey stdOf table hist col metric v =
      processKey stdOf table hist' col metric v := by
  simp only [processKey, h1, h2, h2', processSeries, hwin]

/-- Witness for C7 amended: a history with a missing cell in front of the
value 5 behaves exactly like the history holding only the value 5. -/
theorem rolling_window_amended_spot :
    processKey (fun _ => 0) "orders" [("row_count", [HistCell.missing, HistCell.num 5])]
      "__row_count__" "row_count" 3 =
    processKey (fun _ => 0) "orders" [("row_count", [HistCell.num 5])]
      "__row_count__" "row_count" 3 :=
  rolling_window_amended (fun _ => 0) "orders"
    [("row_count", [HistCell.missing, HistCell.num 5])]
    [("row_count", [HistCell.num 5])] "__row_count__" "row_count" 3 "row_count"
    [HistCell.missing, HistCell.num 5] [HistCell.num 5] rfl rfl rfl rfl

/-- C8 counterexample: one non-numeric value in a single column's history
aborts the whole table's detection — `detect_anomalies_for_table` raises
instead of skipping the bad key.  With the bad `amount` column removed, the
same run would have reported a CRITICAL row-count anomaly; with it, the run
errors and reports nothing. -/
theorem malformed_history_counterexample :
    detectTable (fun _ => 0) "orders"
        [("amount", "mean", 5), ("__row_count__", "row_count", 10)]
        [("amount__mean", [HistCell.nonNumeric "N/A"]),
         ("row_count", List.replicate 30 (HistCell.num 100))] = .error () ∧
    detectTable (fun _ => 0) "orders" [("__row_count__", "row_count", 10)]
        [("amount__mean", [HistCell.nonNumeric "N/A"]),
         ("row_count", List.replicate 30 (HistCell.num 100))] =
      .ok [⟨"orders", "__row_count__", "row_count", 10, 100, 0, 999, -(9 / 10),
        "CRITICAL"⟩] ∧
    (Except.error () : Except Unit (List Anomaly)) ≠
      .ok [⟨"orders", "__row_count__", "row_count", 10, 100, 0, 999, -(9 / 10),
        "CRITICAL"⟩] := by
  refine ⟨?_, ?_, by simp⟩
  · exact detectTable_abort (fun _ => 0) "orders" _ [] [("__row_count__", "row_count", 10)]
      "amount" "mean" 5 rfl
  · have hk : processKey (fun _ => 0) "orders"
        [("amount__mean", [HistCell.nonNumeric "N/A"]),
         ("row_count", List.replicate 30 (HistCell.num 100))]
        "__row_count__" "row_count" 10 =
        .ok (some ⟨"orders", "__row_count__", "row_count", 10, 100, 0, 999, -(9 / 10),
          "CRITICAL"⟩) := by
      rw [processKey_eq (fun _ => 0) "orders"
          [("amount__mean", [HistCell.nonNumeric "N/A"]),
           ("row_count", List.replicate 30 (HistCell.num 100))]
          "__row_count__" "row_count" 10
          "row_count" (List.replicate 30 (HistCell.num 100)) (List.replicate 30 100)
          rfl rfl rfl (by decide),
        detectKey_flat_row_count "orders" "__row_count__" 10
          (histMean (List.replicate 30 100)) _ (by norm_num)]
      norm_num [histMean, List.sum_replicate, roundTo, pyRoundInt, round_eq]
    simp only [detectTable]
    rw [hk]
    rfl

/-- C8 amended: a metric key whose history column is absent is skipped alone
and the rest of the table is still processed, but a key whose consumed
history window holds a non-numeric value raises a conversion error that
aborts detection for the whole table. -/
theorem malformed_history_amended (stdOf : List ℚ → ℚ) (table : String)
    (hist : List (String × List HistCell)) (pre post : List (String × String × ℚ))
    (col metric : String) (v : ℚ) (hc : String)
    (h1 : histColName col metric = some hc) :
    (hist.lookup hc = none →
      processKey stdOf table hist col metric v = .ok none ∧
      detectTable stdOf table (pre ++ (col, metric, v) :: post) hist =
        detectTable stdOf table (pre ++ post) hist) ∧
    (∀ cells, hist.lookup hc = some cells → processSeries cells = none →
      detectTable stdOf table (pre ++ (col, metric, v) :: post) hist = .error ()) := by
  constructor
  · intro hnone
    have hp : processKey stdOf table hist col metric v = .ok none := by
      simp [processKey, h1, hnone]
    exact ⟨hp, detectTable_skip stdOf table hist pre post col metric v hp⟩
  · intro cells hsome hbad
    exact detectTable_abort stdOf table hist pre post col metric v
      (by simp [processKey, h1, hsome, hbad])

/-- Witness for C8 amended: a `null_pct` key with no matching history column
is a clean per-key no-op, and a `mean` key whose history holds the text
`"N/A"` aborts the table call with an error. -/
theorem malformed_history_amended_spot :
    (processKey (fun _ => 0) "orders" [("row_count", [HistCell.num 5])]
      "amount" "null_pct" (99 / 100) = .ok none ∧
     detectTable (fun _ => 0) "orders" [("amount", "null_pct", 99 / 100)]
       [("row_count", [HistCell.num 5])] =
     detectTable (fun _ => 0) "orders" [] [("row_count", [HistCell.num 5])]) ∧
    detectTable (fun _ => 0) "orders" [("amount", "mean", 5)]
      [("amount__mean", [HistCell.nonNumeric "N/A"])] = .error () := by
  constructor
  · exact (malformed_history_amended (fun _ => 0) "orders"
      [("row_count", [HistCell.num 5])] [] [] "amount" "null_pct" (99 / 100)
      "amount__null_pct" rfl).1 rfl
  · exact (malformed_history_amended (fun _ => 0) "orders"
      [("amount__mean", [HistCell.nonNumeric "N/A"])] [] [] "amount" "mean" 5
      "amount__mean" rfl).2 [HistCell.nonNumeric "N/A"] rfl rfl

/-- Witness for C10: a zero-variance `std` baseline of ten 4 values emits no
anomaly even for a current value of 1000000. -/
theorem flat_std_skipped_spot :
    processKey (fun _ => 0) "orders" [("price__std", List.replicate 10 (HistCell.num 4))]
      "price" "std" 1000000 = .ok none :=
  flat_std_skipped (fun _ => 0) "orders"
    [("price__std", List.replicate 10 (HistCell.num 4))] "price" 1000000
    (List.replicate 10 (HistCell.num 4)) (List.replicate 10 4) rfl rfl (by decide)
    (by norm_num [IsStdOf, histVar, histMean, List.map_replicate, List.sum_replicate])
    (by norm_num)

/-- C9: the schema comparator's output consists exactly of one CRITICAL
`column_dropped` record (old type set, new value empty) per column in the
baseline only, one LOW `column_added` record (old value empty, new type set)
per column in the current map only, and one HIGH `type_changed` record (both
types set) per common column whose type strings differ — and nothing else;
identical maps produce the empty list. -/
theorem compare_schemas_characterization (table : String) (b c : List (String × String))
    (hb : (cols b).Nodup) (hc : (cols c).Nodup) :
    (∀ d, d ∈ compare_schemas table b c ↔
      ((∃ col, col ∈ cols b ∧ col ∉ cols c ∧
          d = ⟨table, "column_dropped", col, typeOf b col, "", "CRITICAL"⟩) ∨
       (∃ col, col ∈ cols c ∧ col ∉ cols b ∧
          d = ⟨table, "column_added", col, "", typeOf c col, "LOW"⟩) ∨
       (∃ col, col ∈ cols b ∧ col ∈ cols c ∧
          typeOf b col ≠ typeOf c col ∧
          d = ⟨table, "type_changed", col, typeOf b col, typeOf c col, "HIGH"⟩))) ∧
    (compare_schemas table b c).Nodup ∧
    compare_schemas table b b = [] := by
  refine ⟨?_, ?_, ?_⟩
  · intro d
    simp only [compare_schemas, List.mem_append, List.mem_map, List.mem_filter,
      List.mem_filterMap, decide_not, Bool.not_eq_true', List.elem_iff,
      decide_eq_false_iff_not, decide_eq_true_eq]
    constructor
    · rintro ((⟨col, ⟨hmem, hnot⟩, rfl⟩ | ⟨col, ⟨hmem, hnot⟩, rfl⟩) | ⟨col, ⟨hmem, hin⟩, hsome⟩)
      · exact Or.inl ⟨col, hmem, hnot, rfl⟩
      · exact Or.inr (Or.inl ⟨col, hmem, hnot, rfl⟩)
      · rw [ite_eq_iff] at hsome
        rcases hsome with ⟨hne, heq⟩ | ⟨_, heq⟩
        · cases heq
          exact Or.inr (Or.inr ⟨col, hmem, hin, hne, rfl⟩)
        · cases heq
    · rintro (⟨col, hmem, hnot, rfl⟩ | ⟨col, hmem, hnot, rfl⟩ | ⟨col, hmem, hin, hne, rfl⟩)
      · exact Or.inl (Or.inl ⟨col, ⟨hmem, hnot⟩, rfl⟩)
      · exact Or.inl (Or.inr ⟨col, ⟨hmem, hnot⟩, rfl⟩)
      · exact Or.inr ⟨col, ⟨hmem, hin⟩, by rw [if_pos hne]⟩
  · have hinj1 : Function.Injective (fun col =>
        ({ table := table, drift_type := "column_dropped", column_name := col
           old_value := typeOf b col, new_value := "", severity := "CRITICAL" } : SchemaDrift)) :=
      fun a1 a2 h => congrArg SchemaDrift.column_name h
    have hinj2 : Function.Injective (fun col =>
        ({ table := table, drift_type := "column_added", column_name := col
           old_value := "", new_value := typeOf c col, severity := "LOW" } : SchemaDrift)) :=
      fun a1 a2 h => congrArg SchemaDrift.column_name h
    have h1 := (hb.filter (fun x => ¬ (cols c).contains x)).map hinj1
    have h2 := (hc.filter (fun x => ¬ (cols b).contains x)).map hinj2
    have h3 : ((((cols b).filter (fun x => (cols c).contains x)).filterMap fun col =>
        if typeOf b col ≠ typeOf c col then
          some ({ table := table, drift_type := "type_changed", column_name := col
                  old_value := typeOf b col, new_value := typeOf c col
                  severity := "HIGH" } : SchemaDrift)
        else none)).Nodup := by
      refine List.Nodup.filterMap ?_ (hb.filter (fun x => (cols c).contains x))
      intro a1 a2 dd hd1 hd2
      rw [Option.mem_def, ite_eq_iff] at hd1 hd2
      rcases hd1 with ⟨_, h1'⟩ | ⟨_, h1'⟩
      · rcases hd2 with ⟨_, h2'⟩ | ⟨_, h2'⟩
        · exact congrArg SchemaDrift.column_name (Option.some.inj (h1'.trans h2'.symm))
        · exact absurd h2' (by simp)
      · exact absurd h1' (by simp)
    refine (h1.append h2 ?_).append h3 ?_
    · intro x hx1 hx2
      obtain ⟨col1, _, rfl⟩ := List.mem_map.1 hx1
      obtain ⟨col2, _, h⟩ := List.mem_map.1 hx2
      exact absurd (congrArg SchemaDrift.drift_type h) (by simp)
    · intro x hx hx3
      obtain ⟨col3, _, h3'⟩ := List.mem_filterMap.1 hx3
      rw [ite_eq_iff] at h3'
      rcases h3' with ⟨_, h3'⟩ | ⟨_, h3'⟩
      · rcases List.mem_append.1 hx with hx1 | hx2
        · obtain ⟨col1, _, rfl⟩ := List.mem_map.1 hx1
          exact absurd (congrArg SchemaDrift.drift_type (Option.some.inj h3')) (by simp)
        · obtain ⟨col2, _, rfl⟩ := List.mem_map.1 hx2
          exact absurd (congrArg SchemaDrift.drift_type (Option.some.inj h3')) (by simp)
      · exact Option.noConfusion h3'
  · simp only [compare_schemas]
    rw [List.filter_eq_nil_iff.mpr, List.filterMap_eq_nil_iff.mpr]
    · simp
    · intro a _
      simp
    · intro a ha
      simpa using ha

/-- Witness for C9 at concrete maps: identical maps give no drift; a renamed
column gives exactly a CRITICAL drop plus a LOW add; a retyped column gives
exactly one HIGH `type_changed` record; a new column gives exactly one LOW
`column_added` record. -/
theorem compare_schemas_characterization_spot :
    compare_schemas "orders" [("order_status", "VARCHAR")]
      [("order_status", "VARCHAR")] = [] ∧
    compare_schemas "orders" [("order_status", "VARCHAR")] [("status", "VARCHAR")] =
      [⟨"orders", "column_dropped", "order_status", "VARCHAR", "", "CRITICAL"⟩,
       ⟨"orders", "column_added", "status", "", "VARCHAR", "LOW"⟩] ∧
    compare_schemas "orders" [("amount", "INTEGER")] [("amount", "BIGINT")] =
      [⟨"orders", "type_changed", "amount", "INTEGER", "BIGINT", "HIGH"⟩] ∧
    compare_schemas "orders" [("amount", "INTEGER")]
      [("amount", "INTEGER"), ("note", "VARCHAR")] =
      [⟨"orders", "column_added", "note", "", "VARCHAR", "LOW"⟩] :=
  ⟨(compare_schemas_characterization "orders" [("order_status", "VARCHAR")]
      [("order_status", "VARCHAR")] (by decide) (by decide)).2.2,
   by decide, by decide, by decide⟩

end DataQuality
